import Mathlib

/-!
Verification development for the retrieval-augmented research-report pipeline
(`test1.py`).  Python strings are embedded as `List Char`; the external
collaborators (generation model, search provider, content fetcher, vector
store) are modelled as an explicit environment of oracle functions, and the
Streamlit session state / Chroma collection as explicitly threaded values.
-/

namespace Research

/-- Python strings are embedded as lists of characters. -/
abbrev Str := List Char

/-- One organic search result as consumed by the pipeline: the `title` and
`link` fields of an entry of the provider response's `organic` list. -/
structure SearchResult where
  title : Str
  link : Str
deriving DecidableEq

/-- Outcome of the `google_search` provider call (`requests.post` +
`response.json()`): either the call raises (`err` — no try/except around it in
the source), or it returns a parsed body whose `organic` list is
`organic` (a body with no `"organic"` key is `ok []`, matching
`search_results.get("organic", [])`). -/
inductive SearchResponse where
  | err : SearchResponse
  | ok (organic : List SearchResult) : SearchResponse
deriving DecidableEq

/-- A recorded source: the dict
`{"title": ..., "link": ..., "content": chunks}` built in `research_agent`. -/
structure SourceDoc where
  title : Str
  link : Str
  content : List Str
deriving DecidableEq

/-- One entry of `st.session_state.research_data["questions"]`:
`{"question": q, "sources": sources}`. -/
structure QuestionEntry where
  question : Str
  sources : List SourceDoc
deriving DecidableEq

/-- The `st.session_state.research_data` dict:
`{"topic": ..., "questions": [...], "sources": [...]}` (the top-level
`"sources"` list is written once as `[]` and never appended to). -/
structure ResearchData where
  topic : Str
  questions : List QuestionEntry
  sources : List SourceDoc
deriving DecidableEq

/-- Oracles for the external collaborators: `planner` and `write` are the two
`llm.invoke` uses (prompt to response text), `search` is the Serper call for a
query, `fetch` is `requests.get` for a URL (`none` when it raises, including
timeout), and `query` is Chroma `similarity_search` (collection contents,
query text, `k` to the returned `page_content` texts). -/
structure Env where
  planner : Str → Str
  search : Str → SearchResponse
  fetch : Str → Option Str
  query : List Str → Str → Nat → List Str
  write : Str → Str

/-- `google_search(query)`: the provider call; the source wraps it in no
try/except, so an exception outcome is surfaced as `SearchResponse.err`. -/
def google_search (env : Env) (query : Str) : SearchResponse :=
  env.search query

/-- `web_scraper(url)`: `requests.get(url, timeout=10)` inside try/except;
returns the first 5000 characters of the page text, or `""` on any error. -/
def web_scraper (env : Env) (url : Str) : Str :=
  match env.fetch url with
  | some text => text.take 5000
  | none => []

/-- Number of 800-character windows at stride 700 covering a text of length
`n` (one window when `n ≤ 800`). -/
def numChunks (n : Nat) : Nat :=
  if n ≤ 800 then 1 else (n - 101) / 700 + 1

/-- Modelled from the spec: the chunker is langchain's
`RecursiveCharacterTextSplitter(chunk_size=800, chunk_overlap=100)`, library
code that is not part of this repository.  Following §4.3 and §8 scenario C of
the specification (window size 800, overlap 100,
`chunk count = ceil((5000-800)/(800-100)) + 1`), it is modelled as the raw
character sliding window: chunk `i` is the 800-character window starting at
offset `700 * i`. -/
def split_text (s : Str) : List Str :=
  (List.range (numChunks s.length)).map fun i => (s.drop (700 * i)).take 800

/-- `process_content(content)`: chunk content for vector storage. -/
def process_content (content : Str) : List Str :=
  split_text content

/-- The body of the inner result loop of `research_agent`: scrape the result's
link and, when the content is non-empty (`if content:`), build the source
dict; an empty scrape (fetch failure or empty page) skips the result. -/
def processResult (env : Env) (r : SearchResult) : Option SourceDoc :=
  let content := web_scraper env r.link
  if content = [] then none
  else some ⟨r.title, r.link, process_content content⟩

/-- The texts written to the vector store for one source:
`f"Source: {s['title']}\nContent: {chunk}"` for each chunk. -/
def chunkDoc (s : SourceDoc) : List Str :=
  s.content.map fun chunk =>
    "Source: ".toList ++ s.title ++ "\nContent: ".toList ++ chunk

/-- The full `docs` list for one question:
`[f"..." for s in sources for chunk in s["content"]]`. -/
def docsFor (sources : List SourceDoc) : List Str :=
  (sources.map chunkDoc).flatten

/-- Python whitespace for `str.strip()`. -/
def pyIsSpace (c : Char) : Bool :=
  c = ' ' || c = '\t' || c = '\n' || c = '\r' || c = '\x0b' || c = '\x0c'

/-- `not q.strip()`: the line is empty or all whitespace. -/
def isBlank (s : Str) : Bool :=
  s.all pyIsSpace

/-- Python `str.split("\n")`. -/
def splitLines : Str → List Str
  | [] => [[]]
  | c :: rest =>
    match splitLines rest with
    | [] => [[]]
    | l :: ls => if c = '\n' then [] :: l :: ls else (c :: l) :: ls

/-- The planner prompt built in `research_agent`. -/
def plannerPrompt (topic : Str) : Str :=
  "Break down this research topic into key sub-questions: ".toList ++ topic ++
    "\n    Return as a numbered list of questions.".toList

/-- Per-question accumulation (`research_agent` loop body after the search
succeeded): take the first 2 organic results, scrape and chunk each, and —
only when at least one source was produced (`if sources:`) — append the docs
to the vector store and the entry to `research_data["questions"]`. -/
def handleQuestion (env : Env) (q : Str) (organic : List SearchResult)
    (acc : ResearchData × List Str) : ResearchData × List Str :=
  let sources := (organic.take 2).filterMap (processResult env)
  if sources = [] then acc
  else
    (⟨acc.1.topic, acc.1.questions ++ [⟨q, sources⟩], acc.1.sources⟩,
      acc.2 ++ docsFor sources)

/-- One iteration of the `for q in questions[:5]` loop: skip blank lines,
then perform the search; a raised search exception (`SearchResponse.err`)
propagates out of the loop. -/
def stepQuestion (env : Env) (acc : ResearchData × List Str) (q : Str) :
    Except Unit (ResearchData × List Str) :=
  if isBlank q then .ok acc
  else
    match google_search env q with
    | .err => .error ()
    | .ok organic => .ok (handleQuestion env q organic acc)

/-- The researcher loop over the (at most 5) planner lines. -/
def runQuestions (env : Env) : List Str → ResearchData × List Str →
    Except Unit (ResearchData × List Str)
  | [], acc => .ok acc
  | q :: qs, acc =>
    match stepQuestion env acc q with
    | .error e => .error e
    | .ok acc' => runQuestions env qs acc'

/-- `research_agent(topic)`.  `prev` is the `st.session_state.research_data`
value left by any previous run in the same session; the source overwrites it
with `{"topic": topic, "questions": [], "sources": []}` before the loop, so it
is never read.  `store₀` is the prior contents of the `research_db` Chroma
collection (persisted, never cleared); the run only appends to it. -/
def research_agent (env : Env) (topic : Str) (prev : ResearchData)
    (store₀ : List Str) : Except Unit (ResearchData × List Str) :=
  let response := env.planner (plannerPrompt topic)
  let questions := splitLines response
  runQuestions env (questions.take 5) (⟨topic, [], []⟩, store₀)

/-- The questions `research_agent` actually processes: the non-blank lines
among the first 5 lines of the planner response. -/
def plannedQuestions (response : Str) : List Str :=
  ((splitLines response).take 5).filter fun q => ! isBlank q

/-- The planner cap as the specification words it: the first 5 non-blank
lines of the response. -/
def specPlan (response : Str) : List Str :=
  ((splitLines response).filter fun q => ! isBlank q).take 5

/-- The quote character CPython `repr` picks for a string: double quotes
when the string contains a single quote but no double quote, else single
quotes. -/
def pyQuoteChar (s : Str) : Char :=
  if s.contains '\'' && ! s.contains '"' then '"' else '\''

/-- CPython `repr` escaping of one character under the chosen quote
character (the escapes relevant to text: backslash, the quote itself, and
the common control characters). -/
def pyEscChar (quote : Char) (c : Char) : Str :=
  if c = '\\' then ['\\', '\\']
  else if c = quote then ['\\', quote]
  else if c = '\n' then ['\\', 'n']
  else if c = '\r' then ['\\', 'r']
  else if c = '\t' then ['\\', 't']
  else [c]

/-- CPython `repr` of a string (printable characters). -/
def pyStrRepr (s : Str) : Str :=
  let q := pyQuoteChar s
  q :: (s.map (pyEscChar q)).flatten ++ [q]

/-- The comma-separated item renderings inside a Python list display. -/
def reprItems : List Str → Str
  | [] => []
  | t :: ts =>
    match ts with
    | [] => pyStrRepr t
    | _ :: _ => pyStrRepr t ++ ',' :: ' ' :: reprItems ts

/-- Python `str` of a list of strings, as produced when an f-string
interpolates `[d.page_content for d in docs]`: the bracketed,
comma-separated `repr`s of the elements. -/
def pyListRepr (l : List Str) : Str :=
  '[' :: reprItems l ++ [']']

/-- A character that CPython `repr` renders unchanged inside a
single-quoted display: not a backslash, single quote, newline, carriage
return or tab. -/
def reprPlain (c : Char) : Bool :=
  ! (c = '\\' || c = '\'' || c = '\n' || c = '\r' || c = '\t')

/-- The writer prompt built in `generate_report` for one question: the
f-string interpolates the question text directly and the retrieved
`page_content` list through Python's list display. -/
def writerPrompt (q : Str) (ctxs : List Str) : Str :=
  "Compile research findings for: ".toList ++ q ++
    "\n        Context: ".toList ++ pyListRepr ctxs ++
    "\n        Create a comprehensive section with references.".toList

/-- `similarity_search` on the shared `research_db` collection. -/
def similarity_search (env : Env) (store : List Str) (query : Str) (k : Nat) :
    List Str :=
  env.query store query k

/-- One section dict appended in `generate_report`:
`{"title": ..., "content": ..., "sources": ...}`. -/
structure ReportSection where
  title : Str
  content : Str
  sources : List SourceDoc
deriving DecidableEq

/-- The data handed to the Jinja template: the topic and the ordered section
list (the template itself iterates the sections in order and performs no
reordering, so it is the report artifact for the purposes of structure). -/
structure Report where
  topic : Str
  sections : List ReportSection
deriving DecidableEq

/-- The body of the section loop in `generate_report`: query the vector
store for the question (k = 3), invoke the writer model on the prompt, and
copy the recorded sources through unchanged. -/
def buildSection (env : Env) (store : List Str) (item : QuestionEntry) :
    ReportSection :=
  let docs := similarity_search env store item.question 3
  { title := item.question
    content := env.write (writerPrompt item.question docs)
    sources := item.sources }

/-- `generate_report()`: one section per `research_data["questions"]` entry,
in order, rendered under the run's topic. -/
def generate_report (env : Env) (store : List Str) (data : ResearchData) :
    Report :=
  { topic := data.topic
    sections := data.questions.map (buildSection env store) }

/-! ### Chunker lemmas -/

lemma length_process_content (s : Str) :
    (process_content s).length = numChunks s.length := by
  simp [process_content, split_text]

lemma process_content_getElem (s : Str) (i : Nat)
    (h : i < (process_content s).length) :
    (process_content s)[i] = (s.drop (700 * i)).take 800 := by
  simp [process_content, split_text]

/-! ### Claims C4 and C5 -/

/-- C4 (truncation law): for every URL, when the fetch succeeds the content
passed on is exactly the first 5000 characters of the raw page text, and the
scraped content never exceeds 5000 characters regardless of the page's
length. -/
theorem C4_truncation_law :
    (∀ (env : Env) (url text : Str), env.fetch url = some text →
        web_scraper env url = text.take 5000) ∧
    (∀ (env : Env) (url : Str), (web_scraper env url).length ≤ 5000) := by
  constructor
  · intro env url text h
    simp [web_scraper, h]
  · intro env url
    unfold web_scraper
    cases h : env.fetch url with
    | none => simp
    | some t =>
      simp only [List.length_take]
      omega

def envC4 : Env :=
  { planner := fun _ => []
    search := fun _ => .err
    fetch := fun _ => some (List.replicate 6000 'a')
    query := fun _ _ _ => []
    write := fun s => s }

/-- Witness for C4 at a 6000-character page. -/
theorem C4_truncation_law_witness :
    web_scraper envC4 ("u".toList) = (List.replicate 6000 'a').take 5000 ∧
    (web_scraper envC4 ("u".toList)).length ≤ 5000 :=
  ⟨C4_truncation_law.1 envC4 ("u".toList) (List.replicate 6000 'a') rfl,
   C4_truncation_law.2 envC4 ("u".toList)⟩

/-- C5 (chunker window law): every chunk has length at most 800, and when the
text is longer than one window every adjacent pair of chunks `(a, b)` has `a`
a full 800-character window whose final 100 characters (`a.drop 700`) are
exactly the first 100 characters of `b`, with `b` strictly longer than 100
characters — i.e. adjacent chunks overlap by exactly 100 characters. -/
theorem C5_chunk_window_law :
    (∀ (s : Str), ∀ c ∈ process_content s, c.length ≤ 800) ∧
    (∀ (s : Str), 800 < s.length →
      List.Chain'
        (fun a b => a.length = 800 ∧ a.drop 700 = b.take 100 ∧ 100 < b.length)
        (process_content s)) := by
  constructor
  · intro s c hc
    simp only [process_content, split_text, List.mem_map, List.mem_range] at hc
    obtain ⟨i, _, rfl⟩ := hc
    simp only [List.length_take]
    omega
  · intro s h800
    rw [List.chain'_iff_get]
    intro i hi
    have hlen : (process_content s).length = (s.length - 101) / 700 + 1 := by
      rw [length_process_content, numChunks, if_neg (by omega)]
    have hi0 : i < (process_content s).length := by omega
    have hi1 : i + 1 < (process_content s).length := by omega
    rw [List.get_eq_getElem, List.get_eq_getElem,
      process_content_getElem s i hi0, process_content_getElem s (i + 1) hi1]
    have hdiv : 700 * ((s.length - 101) / 700) ≤ s.length - 101 :=
      Nat.mul_div_le ..
    have hle : i + 1 ≤ (s.length - 101) / 700 := by omega
    have hmul : 700 * (i + 1) ≤ 700 * ((s.length - 101) / 700) :=
      Nat.mul_le_mul_left 700 hle
    have hkey : 700 * (i + 1) ≤ s.length - 101 := le_trans hmul hdiv
    have hsucc : 700 * (i + 1) = 700 * i + 700 := Nat.mul_succ ..
    refine ⟨?_, ?_, ?_⟩
    · simp only [List.length_take, List.length_drop]
      omega
    · rw [List.drop_take, List.drop_drop, List.take_take]
      norm_num
      rw [← hsucc]
    · simp only [List.length_take, List.length_drop]
      omega

def sC5 : Str := List.replicate 1000 'a'

set_option maxRecDepth 16384 in
/-- Witness for C5: a one-chunk text and a 1000-character text (two
overlapping windows). -/
theorem C5_chunk_window_law_witness :
    ("hi".toList.length ≤ 800) ∧ 800 < sC5.length ∧
    List.Chain'
      (fun a b => a.length = 800 ∧ a.drop 700 = b.take 100 ∧ 100 < b.length)
      (process_content sC5) :=
  ⟨C5_chunk_window_law.1 ("hi".toList) ("hi".toList) (by decide),
   by simp [sC5],
   C5_chunk_window_law.2 sC5 (by simp [sC5])⟩

/-! ### Researcher-loop lemmas -/

/-- The vector-store texts contributed by a list of recorded entries. -/
def newDocs (new : List QuestionEntry) : List Str :=
  (new.map fun e => docsFor e.sources).flatten

/-- Blank lines are skipped without any effect: the loop is equivalent to a
loop over the non-blank lines only. -/
lemma runQuestions_filter (env : Env) :
    ∀ (l : List Str) (acc : ResearchData × List Str),
      runQuestions env l acc =
        runQuestions env (l.filter fun q => ! isBlank q) acc := by
  intro l
  induction l with
  | nil => intro acc; rfl
  | cons q qs ih =>
    intro acc
    by_cases hb : isBlank q
    · have hstep : stepQuestion env acc q = .ok acc := by
        simp [stepQuestion, hb]
      simp only [runQuestions, hstep, List.filter_cons, hb, Bool.not_true,
        Bool.false_eq_true, if_false]
      exact ih acc
    · have hbf : isBlank q = false := by simp [hb]
      cases hst : stepQuestion env acc q with
      | error e =>
        simp only [runQuestions, hst, List.filter_cons, hbf, Bool.not_false,
          if_true]
      | ok acc' =>
        simp only [runQuestions, hst, List.filter_cons, hbf, Bool.not_false,
          if_true]
        exact ih acc'

/-- Everything `runQuestions` guarantees about a completed loop: the topic
and the top-level `"sources"` list are untouched, the recorded entries are
appended in order, the store only grows by the recorded entries' docs, the
recorded questions form a subsequence of the processed non-blank lines, and
every recorded entry has a non-empty source list obtained from a successful
search by scraping the first two organic results in order. -/
lemma runQuestions_ok (env : Env) :
    ∀ (l : List Str) (acc res : ResearchData × List Str),
      runQuestions env l acc = .ok res →
      ∃ new : List QuestionEntry,
        res.1.topic = acc.1.topic ∧
        res.1.questions = acc.1.questions ++ new ∧
        res.1.sources = acc.1.sources ∧
        res.2 = acc.2 ++ newDocs new ∧
        List.Sublist (new.map fun e => e.question)
          (l.filter fun q => ! isBlank q) ∧
        ∀ e ∈ new, e.sources ≠ [] ∧
          ∃ organic, env.search e.question = SearchResponse.ok organic ∧
            e.sources = (organic.take 2).filterMap (processResult env) := by
  intro l
  induction l with
  | nil =>
    intro acc res h
    simp only [runQuestions, Except.ok.injEq] at h
    exact ⟨[], by simp [← h, newDocs]⟩
  | cons q qs ih =>
    intro acc res h
    by_cases hb : isBlank q
    · have hstep : stepQuestion env acc q = .ok acc := by
        simp [stepQuestion, hb]
      simp only [runQuestions, hstep] at h
      obtain ⟨new, h1, h2, h3, h4, h5, h6⟩ := ih acc res h
      exact ⟨new, h1, h2, h3, h4, by simpa [List.filter_cons, hb] using h5, h6⟩
    · have hbf : isBlank q = false := by simp [hb]
      have hfil : (q :: qs).filter (fun q => ! isBlank q) =
          q :: qs.filter (fun q => ! isBlank q) := by
        simp [List.filter_cons, hbf]
      cases hs : env.search q with
      | err =>
        have hstep : stepQuestion env acc q = .error () := by
          simp [stepQuestion, hbf, google_search, hs]
        simp only [runQuestions, hstep] at h
        exact absurd h (by simp)
      | ok organic =>
        have hstep : stepQuestion env acc q =
            .ok (handleQuestion env q organic acc) := by
          simp [stepQuestion, hbf, google_search, hs]
        simp only [runQuestions, hstep] at h
        by_cases hsrc : (organic.take 2).filterMap (processResult env) = []
        · have hhq : handleQuestion env q organic acc = acc := by
            simp [handleQuestion, hsrc]
          rw [hhq] at h
          obtain ⟨new, h1, h2, h3, h4, h5, h6⟩ := ih acc res h
          exact ⟨new, h1, h2, h3, h4, by rw [hfil]; exact h5.cons q, h6⟩
        · set srcs := (organic.take 2).filterMap (processResult env) with hsrcs
          have hhq : handleQuestion env q organic acc =
              (⟨acc.1.topic, acc.1.questions ++ [⟨q, srcs⟩], acc.1.sources⟩,
                acc.2 ++ docsFor srcs) := by
            simp [handleQuestion, hsrc, hsrcs]
          rw [hhq] at h
          obtain ⟨new, h1, h2, h3, h4, h5, h6⟩ := ih _ res h
          refine ⟨⟨q, srcs⟩ :: new, ?_, ?_, ?_, ?_, ?_, ?_⟩
          · exact h1
          · rw [h2]; simp [List.append_assoc]
          · exact h3
          · rw [h4]; simp [newDocs, List.append_assoc]
          · rw [hfil]
            exact h5.cons₂ q
          · intro e he
            rcases List.mem_cons.mp he with rfl | he'
            · exact ⟨hsrc, organic, hs, rfl⟩
            · exact h6 e he'

/-! ### Shared concrete fixtures -/

/-- A happy-path environment: one planned question, one organic result, a
successfully fetched short page. -/
def envHappy : Env :=
  { planner := fun _ => "Q1".toList
    search := fun _ => .ok [⟨"T".toList, "L".toList⟩]
    fetch := fun _ => some "hi".toList
    query := fun _ _ _ => []
    write := fun s => s }

/-- Leftover session state from a previous run. -/
def prevFix : ResearchData := ⟨"old".toList, [⟨"oldq".toList, []⟩], []⟩

/-- The run state `research_agent envHappy "t" _ []` produces. -/
def dataHappy : ResearchData :=
  ⟨"t".toList, [⟨"Q1".toList, [⟨"T".toList, "L".toList, ["hi".toList]⟩]⟩], []⟩

/-- Its single recorded entry. -/
def entryHappy : QuestionEntry :=
  ⟨"Q1".toList, [⟨"T".toList, "L".toList, ["hi".toList]⟩]⟩

/-- The store contents `research_agent envHappy "t" _ []` writes. -/
def storeHappy : List Str := ["Source: T\nContent: hi".toList]

/-! ### Claim C1 -/

/-- C1 (drop invariant): every entry recorded in
`research_data["questions"]` by a completed run has a non-empty source
list, and when a question's source list comes out empty the loop body leaves
both the run state and the vector store untouched (no write happens). -/
theorem C1_drop_invariant :
    (∀ (env : Env) (topic : Str) (prev : ResearchData) (store₀ : List Str)
        (data : ResearchData) (store : List Str),
        research_agent env topic prev store₀ = .ok (data, store) →
        ∀ e ∈ data.questions, e.sources ≠ []) ∧
    (∀ (env : Env) (q : Str) (organic : List SearchResult)
        (acc : ResearchData × List Str),
        (organic.take 2).filterMap (processResult env) = [] →
        handleQuestion env q organic acc = acc) := by
  constructor
  · intro env topic prev store₀ data store h e he
    unfold research_agent at h
    obtain ⟨new, _, h2, _, _, _, h6⟩ := runQuestions_ok env _ _ _ h
    simp only [List.nil_append] at h2
    rw [h2] at he
    exact (h6 e he).1
  · intro env q organic acc h
    simp [handleQuestion, h]

set_option maxRecDepth 8192 in
/-- Witness for C1: the happy-path run records a non-empty source list, and
a zero-result question leaves state and store unchanged. -/
theorem C1_drop_invariant_witness :
    entryHappy.sources ≠ [] ∧
    handleQuestion envHappy ("Q2".toList) [] (dataHappy, storeHappy) =
      (dataHappy, storeHappy) :=
  ⟨C1_drop_invariant.1 envHappy ("t".toList) prevFix [] dataHappy storeHappy
      rfl entryHappy (by decide),
   C1_drop_invariant.2 envHappy ("Q2".toList) [] (dataHappy, storeHappy) rfl⟩

/-! ### Claim C2 -/

/-- An environment whose provider call raises. -/
def envC2 : Env :=
  { planner := fun _ => "Q1".toList
    search := fun _ => .err
    fetch := fun _ => none
    query := fun _ _ _ => []
    write := fun s => s }

/-- An environment whose provider call succeeds but yields no organic
results. -/
def envC2ok : Env :=
  { planner := fun _ => "Q1".toList
    search := fun _ => .ok []
    fetch := fun _ => none
    query := fun _ _ _ => []
    write := fun s => s }

/-- Counterexample to C2 as stated: `google_search` is wrapped in no
try/except, so when the provider call raises for the first planned question
the whole run aborts — a provider-call failure does abort the run. -/
theorem C2_counterexample :
    google_search envC2 ("Q1".toList) = .err ∧
    research_agent envC2 ("t".toList) prevFix [] = .error () :=
  ⟨rfl, rfl⟩

/-- C2 as amended: when the provider call returns (even with no organic
results) the question silently yields zero sources and the run continues,
but when the provider call raises, the exception propagates and the run
aborts. -/
theorem C2_search_recovery_amended :
    (∀ (env : Env) (acc : ResearchData × List Str) (q : Str),
        isBlank q = false → google_search env q = .ok [] →
        stepQuestion env acc q = .ok acc) ∧
    (∀ (env : Env) (acc : ResearchData × List Str) (q : Str),
        isBlank q = false → google_search env q = .err →
        stepQuestion env acc q = .error ()) := by
  constructor
  · intro env acc q hb hs
    simp [stepQuestion, hb, hs, handleQuestion]
  · intro env acc q hb hs
    simp [stepQuestion, hb, hs]

/-- Witness for the amended C2: zero organic results continue with the
state unchanged; a raised provider call aborts. -/
theorem C2_search_recovery_amended_witness :
    stepQuestion envC2ok (dataHappy, storeHappy) ("Q1".toList) =
      .ok (dataHappy, storeHappy) ∧
    stepQuestion envC2 (dataHappy, storeHappy) ("Q1".toList) = .error () :=
  ⟨C2_search_recovery_amended.1 envC2ok (dataHappy, storeHappy) ("Q1".toList)
      (by decide) rfl,
   C2_search_recovery_amended.2 envC2 (dataHappy, storeHappy) ("Q1".toList)
      (by decide) rfl⟩

/-! ### Claim C3 -/

/-- An environment whose planner response has a blank second line and six
candidate lines. -/
def envC3 : Env :=
  { planner := fun _ => "Q1\n\nQ2\nQ3\nQ4\nQ5".toList
    search := fun _ => .ok [⟨"T".toList, "L".toList⟩]
    fetch := fun _ => some "hi".toList
    query := fun _ _ _ => []
    write := fun s => s }

set_option maxRecDepth 16384 in
/-- Counterexample to C3 as stated: the source slices `questions[:5]` first
and only then skips blank lines, so for a response whose second line is
blank the run processes the non-blank lines among the first 5 lines
(`Q1 Q2 Q3 Q4`) — not the first 5 non-blank lines (`Q1 Q2 Q3 Q4 Q5`). -/
theorem C3_counterexample :
    (match research_agent envC3 ("t".toList) prevFix [] with
      | .ok (d, _) => d.questions.map fun e => e.question
      | .error _ => []) =
      ["Q1".toList, "Q2".toList, "Q3".toList, "Q4".toList] ∧
    specPlan (envC3.planner (plannerPrompt ("t".toList))) =
      ["Q1".toList, "Q2".toList, "Q3".toList, "Q4".toList, "Q5".toList] ∧
    (match research_agent envC3 ("t".toList) prevFix [] with
      | .ok (d, _) => d.questions.map fun e => e.question
      | .error _ => []) ≠
      specPlan (envC3.planner (plannerPrompt ("t".toList))) :=
  ⟨rfl, rfl, by decide⟩

/-- C3 as amended: the run processes exactly the non-blank lines among the
first 5 lines of the planner response, in generation order; in particular at
most 5 non-blank sub-questions, every one of them non-blank. -/
theorem C3_planner_cap_amended :
    ∀ (env : Env) (topic : Str) (prev : ResearchData) (store₀ : List Str),
      research_agent env topic prev store₀ =
        runQuestions env
          (plannedQuestions (env.planner (plannerPrompt topic)))
          (⟨topic, [], []⟩, store₀) ∧
      (plannedQuestions (env.planner (plannerPrompt topic))).length ≤ 5 ∧
      ∀ q ∈ plannedQuestions (env.planner (plannerPrompt topic)),
        isBlank q = false := by
  intro env topic prev store₀
  refine ⟨?_, ?_, ?_⟩
  · unfold research_agent plannedQuestions
    exact runQuestions_filter env _ _
  · have h1 : (plannedQuestions (env.planner (plannerPrompt topic))).length ≤
        ((splitLines (env.planner (plannerPrompt topic))).take 5).length :=
      List.length_filter_le _ _
    have h2 : ((splitLines (env.planner (plannerPrompt topic))).take 5).length
        ≤ 5 := by
      simp only [List.length_take]
      omega
    omega
  · intro q hq
    have := (List.mem_filter.mp hq).2
    simpa using this

set_option maxRecDepth 16384 in
/-- Witness for the amended C3 at the blank-line response. -/
theorem C3_planner_cap_amended_witness :
    research_agent envC3 ("t".toList) prevFix [] =
      runQuestions envC3
        (plannedQuestions (envC3.planner (plannerPrompt ("t".toList))))
        (⟨"t".toList, [], []⟩, []) ∧
    (plannedQuestions (envC3.planner (plannerPrompt ("t".toList)))).length
      ≤ 5 ∧
    isBlank ("Q1".toList) = false :=
  ⟨(C3_planner_cap_amended envC3 ("t".toList) prevFix []).1,
   (C3_planner_cap_amended envC3 ("t".toList) prevFix []).2.1,
   (C3_planner_cap_amended envC3 ("t".toList) prevFix []).2.2 ("Q1".toList)
      (by decide)⟩

/-! ### Claim C6 -/

/-- C6 (fetch-failure recovery): a result whose fetch raises yields no
source and is skipped, its siblings in the same result list are processed
exactly as they would be without it, and a question whose search succeeded
never aborts the loop. -/
theorem C6_fetch_recovery :
    (∀ (env : Env) (r : SearchResult), env.fetch r.link = none →
        processResult env r = none) ∧
    (∀ (env : Env) (rs₁ : List SearchResult) (r : SearchResult)
        (rs₂ : List SearchResult), env.fetch r.link = none →
        (rs₁ ++ r :: rs₂).filterMap (processResult env) =
          rs₁.filterMap (processResult env) ++
            rs₂.filterMap (processResult env)) ∧
    (∀ (env : Env) (acc : ResearchData × List Str) (q : Str)
        (organic : List SearchResult), google_search env q = .ok organic →
        stepQuestion env acc q ≠ .error ()) := by
  refine ⟨?_, ?_, ?_⟩
  · intro env r h
    simp [processResult, web_scraper, h]
  · intro env rs₁ r rs₂ h
    have hr : processResult env r = none := by
      simp [processResult, web_scraper, h]
    simp [List.filterMap_append, List.filterMap_cons, hr]
  · intro env acc q organic hs
    unfold stepQuestion
    by_cases hb : isBlank q
    · simp [hb]
    · simp [hb, hs]

/-- A result whose fetch raises. -/
def rFail : SearchResult := ⟨"TF".toList, "LF".toList⟩

/-- A result whose fetch succeeds. -/
def rOk : SearchResult := ⟨"T".toList, "L".toList⟩

/-- An environment where only `rFail`'s link fails to fetch. -/
def envC6 : Env :=
  { planner := fun _ => "Q1".toList
    search := fun _ => .ok [rFail, rOk]
    fetch := fun url => if url = "LF".toList then none else some "hi".toList
    query := fun _ _ _ => []
    write := fun s => s }

set_option maxRecDepth 8192 in
/-- Witness for C6: the failing result is skipped while its siblings are
processed, and the question does not abort the loop. -/
theorem C6_fetch_recovery_witness :
    processResult envC6 rFail = none ∧
    ([rOk] ++ rFail :: [rOk]).filterMap (processResult envC6) =
      [rOk].filterMap (processResult envC6) ++
        [rOk].filterMap (processResult envC6) ∧
    stepQuestion envC6 (dataHappy, storeHappy) ("Q1".toList) ≠ .error () :=
  ⟨C6_fetch_recovery.1 envC6 rFail (by decide),
   C6_fetch_recovery.2.1 envC6 [rOk] rFail [rOk] (by decide),
   C6_fetch_recovery.2.2 envC6 (dataHappy, storeHappy) ("Q1".toList)
      [rFail, rOk] rfl⟩

/-! ### Claim C7 -/

lemma within_append_left (x : Str) {l m : Str} (h : l <:+: m) :
    l <:+: x ++ m := by
  obtain ⟨p, t, rfl⟩ := h
  exact ⟨x ++ p, t, by simp [List.append_assoc]⟩

lemma within_append_right (x : Str) {l m : Str} (h : l <:+: m) :
    l <:+: m ++ x := by
  obtain ⟨p, t, rfl⟩ := h
  exact ⟨p, t ++ x, by simp [List.append_assoc]⟩

lemma mem_within_reprItems {t : Str} :
    ∀ {l : List Str}, t ∈ l → pyStrRepr t <:+: reprItems l := by
  intro l
  induction l with
  | nil => intro h; exact absurd h (List.not_mem_nil t)
  | cons x ts ih =>
    intro h
    rcases List.mem_cons.mp h with rfl | h'
    · cases ts with
      | nil => exact ⟨[], [], by simp [reprItems]⟩
      | cons y ys =>
        exact ⟨[], ',' :: ' ' :: reprItems (y :: ys), by simp [reprItems]⟩
    · cases ts with
      | nil => exact absurd h' (List.not_mem_nil t)
      | cons y ys =>
        have h3 := within_append_left (pyStrRepr x ++ [',', ' ']) (ih h')
        simpa [reprItems, List.append_assoc] using h3

lemma mem_within_pyListRepr {t : Str} {l : List Str} (h : t ∈ l) :
    pyStrRepr t <:+: pyListRepr l := by
  have h3 := within_append_left ['[']
    (within_append_right [']'] (mem_within_reprItems h))
  simpa [pyListRepr, List.append_assoc] using h3

lemma escChar_plain {c : Char} (h : reprPlain c = true) :
    pyEscChar '\'' c = [c] := by
  simp only [reprPlain, Bool.not_eq_true', Bool.or_eq_false_iff,
    decide_eq_false_iff_not] at h
  obtain ⟨⟨⟨⟨h1, h2⟩, h3⟩, h4⟩, h5⟩ := h
  simp [pyEscChar, h1, h2, h3, h4, h5]

lemma escFlatten :
    ∀ {t : Str}, (∀ c ∈ t, reprPlain c = true) →
      (t.map (pyEscChar '\'')).flatten = t := by
  intro t
  induction t with
  | nil => intro _; rfl
  | cons c cs ih =>
    intro h
    have hc := escChar_plain (h c (by simp))
    have ihh := ih fun d hd => h d (by simp [hd])
    simp [hc, ihh]

/-- `repr` of a string all of whose characters survive unescaped is the
string surrounded by single quotes. -/
lemma strRepr_plain {t : Str} (h : ∀ c ∈ t, reprPlain c = true) :
    pyStrRepr t = '\'' :: (t ++ ['\'']) := by
  have hni : ¬ ('\'' ∈ t) := fun hmem => by
    have := h '\'' hmem
    simp [reprPlain] at this
  have hq : pyQuoteChar t = '\'' := by
    simp [pyQuoteChar, hni]
  simp only [pyStrRepr]
  rw [hq, escFlatten h]
  rfl

/-- C7 as amended: the writer prompt contains the question verbatim and the
Python list display of the retrieved texts; any retrieved text none of whose
characters is escaped by `repr` (backslash, single quote, newline, carriage
return, tab) therefore appears verbatim in the prompt. -/
theorem C7_context_embedding_amended :
    ∀ (env : Env) (store : List Str) (q : Str),
      (similarity_search env store q 3).length = 3 →
      q <:+: writerPrompt q (similarity_search env store q 3) ∧
      ∀ t ∈ similarity_search env store q 3,
        (∀ c ∈ t, reprPlain c = true) →
        t <:+: writerPrompt q (similarity_search env store q 3) := by
  intro env store q _
  constructor
  · refine ⟨"Compile research findings for: ".toList,
      "\n        Context: ".toList ++
        pyListRepr (similarity_search env store q 3) ++
        "\n        Create a comprehensive section with references.".toList,
      ?_⟩
    simp [writerPrompt, List.append_assoc]
  · intro t ht hplain
    have h1 : t <:+: pyStrRepr t := by
      rw [strRepr_plain hplain]
      exact ⟨['\''], ['\''], rfl⟩
    have h3 := (h1.trans (mem_within_pyListRepr ht))
    have h4 := within_append_left
      ("Compile research findings for: ".toList ++ q ++
        "\n        Context: ".toList) h3
    have h5 := within_append_right
      ("\n        Create a comprehensive section with references.".toList) h4
    simpa [writerPrompt, List.append_assoc] using h5

/-- A retrieved context text containing a newline. -/
def ctxNl : Str := "a\nb".toList

/-- An environment whose vector-store query returns three texts, one of
them containing a newline. -/
def envC7 : Env :=
  { planner := fun _ => []
    search := fun _ => .err
    fetch := fun _ => none
    query := fun _ _ _ => [ctxNl, "c".toList, "d".toList]
    write := fun s => s }

set_option maxRecDepth 16384 in
/-- Counterexample to C7 as stated: the f-string interpolates the retrieved
texts through Python's list display, whose `repr` escapes the newline of
`"a\nb"` to a backslash-n, so that retrieved text does not occur verbatim in
the prompt even though the query returned exactly 3 texts. -/
theorem C7_counterexample :
    (similarity_search envC7 [] ("Q".toList) 3).length = 3 ∧
    ctxNl ∈ similarity_search envC7 [] ("Q".toList) 3 ∧
    ¬ (ctxNl <:+:
        writerPrompt ("Q".toList) (similarity_search envC7 [] ("Q".toList) 3)) :=
  ⟨rfl, by decide, by decide⟩

set_option maxRecDepth 16384 in
/-- Witness for the amended C7: the question text and the escape-free
retrieved text `"c"` both occur verbatim in the prompt. -/
theorem C7_context_embedding_amended_witness :
    ("Q".toList) <:+:
      writerPrompt ("Q".toList) (similarity_search envC7 [] ("Q".toList) 3) ∧
    ("c".toList) <:+:
      writerPrompt ("Q".toList) (similarity_search envC7 [] ("Q".toList) 3) :=
  ⟨(C7_context_embedding_amended envC7 [] ("Q".toList) rfl).1,
   (C7_context_embedding_amended envC7 [] ("Q".toList) rfl).2 ("c".toList)
      (by decide) (by decide)⟩

/-! ### Claim C8 -/

/-- C8 (order preservation): the report's section titles are exactly the
surviving questions of the run state in order; that question sequence is a
subsequence of the processed plan (itself a subsequence of the planner's
response lines); and each entry's sources are the scrape results of the
first two organic results of its search, in search-result order. -/
theorem C8_order_preservation :
    ∀ (env : Env) (topic : Str) (prev : ResearchData) (store₀ : List Str)
      (data : ResearchData) (store : List Str),
      research_agent env topic prev store₀ = .ok (data, store) →
      (generate_report env store data).sections.map (fun s => s.title) =
        data.questions.map (fun e => e.question) ∧
      List.Sublist (data.questions.map fun e => e.question)
        (plannedQuestions (env.planner (plannerPrompt topic))) ∧
      List.Sublist (plannedQuestions (env.planner (plannerPrompt topic)))
        (splitLines (env.planner (plannerPrompt topic))) ∧
      ∀ e ∈ data.questions,
        ∃ organic, env.search e.question = SearchResponse.ok organic ∧
          e.sources = (organic.take 2).filterMap (processResult env) := by
  intro env topic prev store₀ data store h
  unfold research_agent at h
  obtain ⟨new, h1, h2, h3, h4, h5, h6⟩ := runQuestions_ok env _ _ _ h
  simp only [List.nil_append] at h2
  refine ⟨?_, ?_, ?_, ?_⟩
  · simp only [generate_report, List.map_map]
    rfl
  · rw [h2]
    exact h5
  · exact (List.filter_sublist _).trans (List.take_sublist _ _)
  · intro e he
    rw [h2] at he
    exact (h6 e he).2

/-- Witness for C8 on the happy-path run. -/
theorem C8_order_preservation_witness :
    (generate_report envHappy storeHappy dataHappy).sections.map
        (fun s => s.title) =
      dataHappy.questions.map (fun e => e.question) ∧
    List.Sublist (dataHappy.questions.map fun e => e.question)
      (plannedQuestions (envHappy.planner (plannerPrompt ("t".toList)))) ∧
    List.Sublist (plannedQuestions (envHappy.planner (plannerPrompt ("t".toList))))
      (splitLines (envHappy.planner (plannerPrompt ("t".toList)))) :=
  ⟨(C8_order_preservation envHappy ("t".toList) prevFix [] dataHappy
      storeHappy rfl).1,
   (C8_order_preservation envHappy ("t".toList) prevFix [] dataHappy
      storeHappy rfl).2.1,
   (C8_order_preservation envHappy ("t".toList) prevFix [] dataHappy
      storeHappy rfl).2.2.1⟩

/-! ### Claim C9 -/

/-- C9 (run isolation): the outcome of `research_agent` is independent of
the session state left by any previous run (it is overwritten with
`{topic, [], []}` before the loop), so a completed run's state carries the
run's own topic, an empty top-level source list, and only questions from
this run's plan — while the vector-store collection is not cleared: the
prior store contents survive as a prefix. -/
theorem C9_run_isolation :
    ∀ (env : Env) (topic : Str) (prev prev' : ResearchData)
      (store₀ : List Str),
      research_agent env topic prev store₀ =
        research_agent env topic prev' store₀ ∧
      ∀ (data : ResearchData) (store : List Str),
        research_agent env topic prev store₀ = .ok (data, store) →
        data.topic = topic ∧ data.sources = [] ∧
        store₀ <+: store ∧
        List.Sublist (data.questions.map fun e => e.question)
          (plannedQuestions (env.planner (plannerPrompt topic))) := by
  intro env topic prev prev' store₀
  refine ⟨rfl, ?_⟩
  intro data store h
  unfold research_agent at h
  obtain ⟨new, h1, h2, h3, h4, h5, h6⟩ := runQuestions_ok env _ _ _ h
  simp only [List.nil_append] at h2
  refine ⟨h1, h3, ⟨newDocs new, h4.symm⟩, ?_⟩
  rw [h2]
  exact h5

/-- A second stale session state. -/
def prevFix2 : ResearchData := ⟨"older".toList, [], []⟩

/-- Witness for C9 on the happy-path run with two different stale session
states. -/
theorem C9_run_isolation_witness :
    research_agent envHappy ("t".toList) prevFix [] =
      research_agent envHappy ("t".toList) prevFix2 [] ∧
    dataHappy.topic = "t".toList ∧ dataHappy.sources = [] ∧
    ([] : List Str) <+: storeHappy :=
  ⟨(C9_run_isolation envHappy ("t".toList) prevFix prevFix2 []).1,
   ((C9_run_isolation envHappy ("t".toList) prevFix prevFix2 []).2 dataHappy
      storeHappy rfl).1,
   ((C9_run_isolation envHappy ("t".toList) prevFix prevFix2 []).2 dataHappy
      storeHappy rfl).2.1,
   ((C9_run_isolation envHappy ("t".toList) prevFix prevFix2 []).2 dataHappy
      storeHappy rfl).2.2.1⟩

/-! ### Claim C10 -/

/-- C10 (source-list frame property): each report section's `sources` field
is exactly the source list recorded for its question, in order, and it does
not depend on the environment (in particular not on what the vector-store
query returns) nor on the store contents. -/
theorem C10_sources_frame :
    ∀ (env env' : Env) (store store' : List Str) (data : ResearchData),
      (generate_report env store data).sections.map (fun s => s.sources) =
        data.questions.map (fun e => e.sources) ∧
      (generate_report env store data).sections.map (fun s => s.sources) =
        (generate_report env' store' data).sections.map
          (fun s => s.sources) := by
  intro env env' store store' data
  refine ⟨?_, ?_⟩
  · simp only [generate_report, List.map_map]
    rfl
  · simp only [generate_report, List.map_map]
    rfl

end Research
